import Mathlib

/-!
Verification of the notification scheduling and dispatch engine of
`models.py`: the trigger-window evaluator, the audience resolver, the
dynamic template-context resolver and the multi-channel dispatcher of
`NotificationSchedule`, `ContextualNotificationTemplate` and the
connector models.

Conventions of the embedding:
* timestamps and durations are `Int` seconds; `utils.get_local_now()`
  becomes an explicit `instant` argument;
* Django model instances are identified by their primary key (`Nat`),
  matching Django's model equality; related managers (`.all()`) become
  lists; the read-only entity-relationship queries are data of the input
  structures;
* Python code that can raise is embedded in `Except PyErr`;
* a `BooleanField(null=True)` is embedded as `Bool` (Python truthiness
  collapses `None` and `False`);
* the mutation `self.active = False; self.save(...)` performed by the
  window checks is reported as the `deactivate` field of the returned
  `WindowResult` instead of a state write.
-/

namespace Notifier

/-- Python exceptions that the embedded code can raise: `TypeError` from
string-indexing a list, `AttributeError` from a missing attribute,
`IndexError` from an out-of-range list index, and the connector failures
(`EmailException` / `TwilioException`) collapsed into one constructor. -/
inductive PyErr where
  | typeError
  | attributeError
  | indexError
  | channelError
  deriving DecidableEq, Repr

/-- The choices of `NotificationSchedule.recurrence_delta`. -/
inductive DeltaUnit where
  | seconds
  | minutes
  | hours
  | days
  | weeks
  deriving DecidableEq, Repr

/-- The choices of `NotificationSchedule.start_trigger` (a nullable field,
used as `Option StartTrigger`). -/
inductive StartTrigger where
  | beforeJobStart
  | afterJobEnd
  | afterPhotosAvailable
  | afterJobSaved
  | afterJobLocationChanged
  | afterStartDateOnSubjectGroup
  | afterEndDateOnSubjectGroup
  deriving DecidableEq, Repr

/-- The choices of `NotificationSchedule.end_trigger` (nullable). -/
inductive EndTrigger where
  | untilJobStart
  | endDateOnSubjectGroup
  deriving DecidableEq, Repr

/-- The fields of `NotificationSchedule` read by the engine.  Field order:
`recurring`, `recurrence_delta`, `recurrence_delta_count`,
`start_trigger`, `end_at`, `end_trigger`, `last_sent_at`,
`clients_persons`, `clients_schools`, `clients_commercial_others`,
`subjects_booked`, `subjects_parents_booked`, `subjects_not_booked`,
`subjects_parents_not_booked`, `employees`, `smtp_connector`,
`twilio_connector`, `slack_connector` (connector foreign keys as
presence flags).  Fields the engine never reads (`name`, `active`,
`start_at`, `all_clients`, ...) are omitted. -/
structure Schedule where
  recurring : Bool
  recurrence_delta : DeltaUnit
  recurrence_delta_count : Int
  start_trigger : Option StartTrigger
  end_at : Option Int
  end_trigger : Option EndTrigger
  last_sent_at : Option Int
  clients_persons : Bool
  clients_schools : Bool
  clients_commercial_others : Bool
  subjects_booked : Bool
  subjects_parents_booked : Bool
  subjects_not_booked : Bool
  subjects_parents_not_booked : Bool
  employees : Bool
  smtp_connector : Bool
  twilio_connector : Bool
  slack_connector : Bool
  deriving DecidableEq, Repr

/-- An employee of a job: its id and its linked `gaia_user` id. -/
structure Employee where
  id : Nat
  gaia_user : Nat
  deriving DecidableEq, Repr

/-- A client: id, `category` string, its own `gaia_user` and the
gaia-user ids of its `contacts`. -/
structure Client where
  id : Nat
  category : String
  gaia_user : Nat
  contacts : List Nat
  deriving DecidableEq, Repr

/-- A subject: id, its `gaia_user` and the gaia-user ids of its
`parents`. -/
structure Subject where
  id : Nat
  gaia_user : Nat
  parents : List Nat
  deriving DecidableEq, Repr

/-- A subject group as seen from `job.subject_groups.all()`: only its id
and subjects are read there. -/
structure SubjectGroupCore where
  id : Nat
  subjects : List Subject
  deriving DecidableEq, Repr

/-- A job with the relations the engine reads.  `sessions` embeds the
query `job.subjects_session(subject)` as a subject-id-to-session-id
association. -/
structure Job where
  id : Nat
  start_time : Int
  end_time : Int
  employees : List Employee
  clients : List Client
  subject_groups : List SubjectGroupCore
  sessions : List (Nat × Nat)
  deriving DecidableEq, Repr

/-- A subject group with the relations the engine reads. -/
structure SubjectGroup where
  id : Nat
  photos_available : Bool
  start_time : Int
  end_time : Int
  client : Client
  subjects : List Subject
  jobs : List Job
  deriving DecidableEq, Repr

/-- `job.subjects_session(subject)`: the session of a subject on a job,
or `none` when the subject has no booked session there. -/
def sessionLookup (sessions : List (Nat × Nat)) (subject_id : Nat) : Option Nat :=
  match sessions with
  | [] => none
  | (sid, sess) :: rest => if sid = subject_id then some sess else sessionLookup rest subject_id

/-- The cadence duration computed from `(recurrence_delta,
recurrence_delta_count)` by the `datetime.timedelta` chain in
`within_recurring_notification_window`, in seconds. -/
def Schedule.recurrence_delta_duration (s : Schedule) : Int :=
  if s.recurrence_delta = .seconds then 1 * s.recurrence_delta_count
  else if s.recurrence_delta = .minutes then 60 * s.recurrence_delta_count
  else if s.recurrence_delta = .hours then 3600 * s.recurrence_delta_count
  else if s.recurrence_delta = .days then 86400 * s.recurrence_delta_count
  else 604800 * s.recurrence_delta_count

/-- `NotificationSchedule.within_recurring_notification_window`: start
from `True`, and flip to `False` exactly when `last_sent_at` is set and
`instant - last_sent_at < delta`. -/
def Schedule.within_recurring_notification_window (s : Schedule) (instant : Int) : Bool :=
  match s.last_sent_at with
  | some last_sent => if instant - last_sent < s.recurrence_delta_duration then false else true
  | none => true

/-- The result of a window check: the returned
`within_notification_window` boolean, and whether the check performed
the `self.active = False; self.save(update_fields=["active"])` side
effect. -/
structure WindowResult where
  within : Bool
  deactivate : Bool
  deriving DecidableEq, Repr

/-- The `after_start_trigger` chain of
`NotificationSchedule.job_within_notification_window`. -/
def Schedule.job_after_start_trigger (s : Schedule) (job : Job) (instant : Int) : Bool :=
  if s.start_trigger = some .beforeJobStart ∧ instant < job.start_time then true
  else if s.start_trigger = some .afterJobEnd ∧ instant > job.end_time then true
  else if s.start_trigger = some .afterJobSaved then true
  else if s.start_trigger = some .afterJobLocationChanged then true
  else false

/-- Truthiness-and-comparison `self.end_at and instant > self.end_at`. -/
def Schedule.end_at_passed (s : Schedule) (instant : Int) : Bool :=
  match s.end_at with
  | some e => decide (instant > e)
  | none => false

/-- The `after_end_trigger` chain of
`NotificationSchedule.job_within_notification_window`. -/
def Schedule.job_after_end_trigger (s : Schedule) (job : Job) (instant : Int) : Bool :=
  let after_start := s.job_after_start_trigger job instant
  if after_start && s.end_at_passed instant then true
  else if after_start ∧ s.end_trigger = some .untilJobStart ∧ instant > job.start_time then true
  else false

/-- `NotificationSchedule.job_within_notification_window`.  The elif
chain sets `within_notification_window` exactly when the start trigger
has fired and neither end condition has; the recurring respacing check
runs only under `after_end_trigger`; the deactivation write runs when
`after_end_trigger or (not self.recurring and within_notification_window)`. -/
def Schedule.job_within_notification_window (s : Schedule) (job : Job) (instant : Int) : WindowResult :=
  let after_start := s.job_after_start_trigger job instant
  let after_end := s.job_after_end_trigger job instant
  let within0 := after_start && !after_end
  let within := if after_end && s.recurring then s.within_recurring_notification_window instant else within0
  let deactivate := after_end || (!s.recurring && within)
  ⟨within, deactivate⟩

/-- The `after_start_trigger` chain of
`NotificationSchedule.subject_group_within_notification_window`. -/
def Schedule.subject_group_after_start_trigger (s : Schedule) (sg : SubjectGroup) (instant : Int) : Bool :=
  if s.start_trigger = some .afterPhotosAvailable ∧ sg.photos_available then true
  else if s.start_trigger = some .afterStartDateOnSubjectGroup ∧ instant > sg.start_time then true
  else if s.start_trigger = some .afterEndDateOnSubjectGroup ∧ instant > sg.end_time then true
  else false

/-- The `after_end_trigger` chain of
`NotificationSchedule.subject_group_within_notification_window`. -/
def Schedule.subject_group_after_end_trigger (s : Schedule) (sg : SubjectGroup) (instant : Int) : Bool :=
  let after_start := s.subject_group_after_start_trigger sg instant
  if after_start && s.end_at_passed instant then true
  else if after_start ∧ s.end_trigger = some .endDateOnSubjectGroup ∧ instant > sg.end_time then true
  else false

/-- `NotificationSchedule.subject_group_within_notification_window`.
Unlike the job variant, the recurring respacing check runs whenever the
window is otherwise open, and the deactivation write additionally
requires `self.last_sent_at` to be set. -/
def Schedule.subject_group_within_notification_window (s : Schedule) (sg : SubjectGroup) (instant : Int) : WindowResult :=
  let after_start := s.subject_group_after_start_trigger sg instant
  let after_end := s.subject_group_after_end_trigger sg instant
  let within0 := after_start && !after_end
  let within := if within0 && s.recurring then s.within_recurring_notification_window instant else within0
  let deactivate := after_end || (!s.recurring && (within && s.last_sent_at.isSome))
  ⟨within, deactivate⟩

/-- A context bundle: the `gaia_user_models` dict built by
`unique_gaia_users_models`, with one slot per possible key.  A slot is
`none` when the key is absent from the dict; dict equality is the
derived structural equality.  The `subject` slot exists for claim
statements, but no code path ever sets it: the assignment
`gaia_users_models["subject"] = subject` in the source targets the
output list, not the dict. -/
structure Bundle where
  gaia_user : Nat
  subject_group : Option Nat
  job : Option Nat
  session : Option Nat
  employee : Option Nat
  client : Option Nat
  subject : Option Nat
  deriving DecidableEq, Repr

/-- `NotificationSchedule.unique_gaia_users_models`: build the
`gaia_user_models` dict from the truthy keyword arguments, then append
it to the accumulator unless an equal dict is already present.  When the
`subject` argument is passed (truthy), the source executes
`gaia_users_models["subject"] = subject`, a string-keyed assignment on
the accumulator list, which raises `TypeError`. -/
def unique_gaia_users_models (gaia_users_models : List Bundle) (gaia_user : Nat)
    (subject_group job session employee client subject : Option Nat) :
    Except PyErr (List Bundle) :=
  match subject with
  | some _ => .error .typeError
  | none =>
    let gaia_user_models : Bundle :=
      ⟨gaia_user, subject_group, job, session, employee, client, none⟩
    if gaia_user_models ∈ gaia_users_models then .ok gaia_users_models
    else .ok (gaia_users_models ++ [gaia_user_models])

/-- Sequencing of two audience-building steps: the second runs only when
the first did not raise (Python statement sequencing). -/
def stepThen (prev : Except PyErr (List Bundle))
    (next : List Bundle → Except PyErr (List Bundle)) : Except PyErr (List Bundle) :=
  match prev with
  | .ok acc => next acc
  | .error e => .error e

/-- A Python `for` loop threading the accumulator through a raising
body: stop and propagate at the first raise. -/
def foldE {α : Type} (f : List Bundle → α → Except PyErr (List Bundle)) :
    List Bundle → List α → Except PyErr (List Bundle)
  | acc, [] => .ok acc
  | acc, x :: rest =>
    match f acc x with
    | .ok acc2 => foldE f acc2 rest
    | .error e => .error e

/-- The duck-typed view of the root object that
`job_gaia_users_models` reads attributes from: each attribute is `none`
when the object does not define it, and reading it then raises
`AttributeError`. -/
structure JobLike where
  id : Nat
  employees : Option (List Employee)
  clients : Option (List Client)
  subject_groups : Option (List SubjectGroupCore)
  sessions : Option (List (Nat × Nat))
  deriving DecidableEq, Repr

/-- A job defines every attribute the job-root resolver reads. -/
def Job.as_duck (j : Job) : JobLike :=
  ⟨j.id, some j.employees, some j.clients, some j.subject_groups, some j.sessions⟩

/-- Modelled from the spec: the `SubjectGroup` entity (its Django model
lives in the client app, outside this repository's source) exposes the
relations `subjects`, `jobs` and `client` plus `photos_available` and
its dates - it has none of the attributes `employees`, `clients`,
`subject_groups` or `subjects_session` that the job-root resolver
reads, so reading any of them raises `AttributeError`. -/
def SubjectGroup.as_duck (sg : SubjectGroup) : JobLike :=
  ⟨sg.id, none, none, none, none⟩

/-- The `self.employees` section of
`NotificationSchedule.job_gaia_users_models`. -/
def jobEmployeesSection (s : Schedule) (ja : JobLike) (acc : List Bundle) :
    Except PyErr (List Bundle) :=
  if s.employees then
    match ja.employees with
    | none => .error .attributeError
    | some es =>
      foldE (fun acc employee =>
        unique_gaia_users_models acc employee.gaia_user
          none (some ja.id) none (some employee.id) none none) acc es
  else .ok acc

/-- The per-client body of the clients section of
`NotificationSchedule.job_gaia_users_models`. -/
def jobClientStep (s : Schedule) (ja : JobLike) (acc : List Bundle) (client : Client) :
    Except PyErr (List Bundle) :=
  stepThen
    (if s.clients_persons ∧ client.category = "Person" then
      unique_gaia_users_models acc client.gaia_user
        none (some ja.id) none none none none
    else .ok acc)
    (fun acc =>
      if (s.clients_schools ∧ client.category = "School") ∨
         (s.clients_commercial_others ∧
           (client.category = "Commercial" ∨ client.category = "Other")) then
        foldE (fun acc gaia_user =>
          unique_gaia_users_models acc gaia_user
            none (some ja.id) none none (some client.id) none) acc client.contacts
      else .ok acc)

/-- The clients section of `NotificationSchedule.job_gaia_users_models`. -/
def jobClientsSection (s : Schedule) (ja : JobLike) (acc : List Bundle) :
    Except PyErr (List Bundle) :=
  if s.clients_persons ∨ s.clients_schools ∨ s.clients_commercial_others then
    match ja.clients with
    | none => .error .attributeError
    | some cs => foldE (jobClientStep s ja) acc cs
  else .ok acc

/-- The per-subject body of the subjects section of
`NotificationSchedule.job_gaia_users_models`.  Every emitting call here
passes `subject=subject`, so each reached branch raises `TypeError` (see
`unique_gaia_users_models`). -/
def jobSubjectStep (s : Schedule) (ja : JobLike) (sg : SubjectGroupCore)
    (acc : List Bundle) (subject : Subject) : Except PyErr (List Bundle) :=
  match ja.sessions with
  | none => .error .attributeError
  | some sessions =>
    let subjects_session := sessionLookup sessions subject.id
    stepThen
      (if subjects_session.isSome ∧ (s.subjects_booked ∨ s.subjects_parents_booked) then
        stepThen
          (if s.subjects_booked then
            unique_gaia_users_models acc subject.gaia_user
              (some sg.id) (some ja.id) subjects_session none none (some subject.id)
          else .ok acc)
          (fun acc =>
            if s.subjects_parents_booked then
              foldE (fun acc gaia_user =>
                unique_gaia_users_models acc gaia_user
                  (some sg.id) (some ja.id) subjects_session none none (some subject.id))
                acc subject.parents
            else .ok acc)
      else .ok acc)
      (fun acc =>
        if subjects_session.isNone ∧ (s.subjects_not_booked ∨ s.subjects_parents_not_booked) then
          stepThen
            (if s.subjects_not_booked then
              unique_gaia_users_models acc subject.gaia_user
                (some sg.id) (some ja.id) subjects_session none none (some subject.id)
            else .ok acc)
            (fun acc =>
              if s.subjects_parents_not_booked then
                foldE (fun acc gaia_user =>
                  unique_gaia_users_models acc gaia_user
                    (some sg.id) (some ja.id) subjects_session none none (some subject.id))
                  acc subject.parents
              else .ok acc)
        else .ok acc)

/-- The subjects section of `NotificationSchedule.job_gaia_users_models`. -/
def jobSubjectsSection (s : Schedule) (ja : JobLike) (acc : List Bundle) :
    Except PyErr (List Bundle) :=
  if s.subjects_booked ∨ s.subjects_parents_booked ∨
     s.subjects_not_booked ∨ s.subjects_parents_not_booked then
    match ja.subject_groups with
    | none => .error .attributeError
    | some sgs =>
      foldE (fun acc sg => foldE (jobSubjectStep s ja sg) acc sg.subjects) acc sgs
  else .ok acc

/-- `NotificationSchedule.job_gaia_users_models`: the three filter
sections run in sequence over the (duck-typed) root, each threading and
deduplicating the accumulator. -/
def Schedule.job_gaia_users_models (s : Schedule) (ja : JobLike) :
    Except PyErr (List Bundle) :=
  stepThen (stepThen (jobEmployeesSection s ja []) (jobClientsSection s ja))
    (jobSubjectsSection s ja)

/-- The per-client body of the per-job clients loop of
`NotificationSchedule.gaia_users_models_for_subject_group` (this variant
also attaches the client on the `Person` branch). -/
def sgClientStep (s : Schedule) (sg : SubjectGroup) (job : Job)
    (acc : List Bundle) (client : Client) : Except PyErr (List Bundle) :=
  stepThen
    (if s.clients_persons ∧ client.category = "Person" then
      unique_gaia_users_models acc client.gaia_user
        (some sg.id) (some job.id) none none (some client.id) none
    else .ok acc)
    (fun acc =>
      if (s.clients_schools ∧ client.category = "School") ∨
         (s.clients_commercial_others ∧
           (client.category = "Commercial" ∨ client.category = "Other")) then
        foldE (fun acc gaia_user =>
          unique_gaia_users_models acc gaia_user
            (some sg.id) (some job.id) none none (some client.id) none) acc client.contacts
      else .ok acc)

/-- The per-job body of the first loop of
`NotificationSchedule.gaia_users_models_for_subject_group`: employees
then clients of each job linked to the subject group. -/
def sgJobStep (s : Schedule) (sg : SubjectGroup) (acc : List Bundle) (job : Job) :
    Except PyErr (List Bundle) :=
  stepThen
    (if s.employees then
      foldE (fun acc employee =>
        unique_gaia_users_models acc employee.gaia_user
          (some sg.id) (some job.id) none (some employee.id) none none) acc job.employees
    else .ok acc)
    (fun acc =>
      if s.clients_persons ∨ s.clients_schools ∨ s.clients_commercial_others then
        foldE (sgClientStep s sg job) acc job.clients
      else .ok acc)

/-- The subject-group's own client, `Person` branch, of
`NotificationSchedule.gaia_users_models_for_subject_group`. -/
def sgOwnClientPerson (s : Schedule) (sg : SubjectGroup) (acc : List Bundle) :
    Except PyErr (List Bundle) :=
  if s.clients_persons ∧ sg.client.category = "Person" then
    unique_gaia_users_models acc sg.client.gaia_user
      (some sg.id) none none none (some sg.client.id) none
  else .ok acc

/-- The subject-group's own client, school/commercial branch, of
`NotificationSchedule.gaia_users_models_for_subject_group` (note the
source emits for the client's own `gaia_user` here, not its contacts). -/
def sgOwnClientSchool (s : Schedule) (sg : SubjectGroup) (acc : List Bundle) :
    Except PyErr (List Bundle) :=
  if (s.clients_schools ∧ sg.client.category = "School") ∨
     (s.clients_commercial_others ∧
       (sg.client.category = "Commercial" ∨ sg.client.category = "Other")) then
    unique_gaia_users_models acc sg.client.gaia_user
      (some sg.id) none none none (some sg.client.id) none
  else .ok acc

/-- The per-job body of the subjects loop (subject group has jobs) of
`NotificationSchedule.gaia_users_models_for_subject_group`.  Every
emitting branch passes `subject=subject` and so raises `TypeError`; the
not-booked branches here pass no session. -/
def sgSubjectJobStep (s : Schedule) (sg : SubjectGroup) (subject : Subject)
    (acc : List Bundle) (job : Job) : Except PyErr (List Bundle) :=
  let subjects_session := sessionLookup job.sessions subject.id
  stepThen
    (if subjects_session.isSome ∧ (s.subjects_booked ∨ s.subjects_parents_booked) then
      stepThen
        (if s.subjects_booked then
          unique_gaia_users_models acc subject.gaia_user
            (some sg.id) (some job.id) subjects_session none none (some subject.id)
        else .ok acc)
        (fun acc =>
          if s.subjects_parents_booked then
            foldE (fun acc gaia_user =>
              unique_gaia_users_models acc gaia_user
                (some sg.id) (some job.id) subjects_session none none (some subject.id))
              acc subject.parents
          else .ok acc)
    else .ok acc)
    (fun acc =>
      if subjects_session.isNone ∧ (s.subjects_not_booked ∨ s.subjects_parents_not_booked) then
        stepThen
          (if s.subjects_not_booked then
            unique_gaia_users_models acc subject.gaia_user
              (some sg.id) (some job.id) none none none (some subject.id)
          else .ok acc)
          (fun acc =>
            if s.subjects_parents_not_booked then
              foldE (fun acc gaia_user =>
                unique_gaia_users_models acc gaia_user
                  (some sg.id) (some job.id) none none none (some subject.id))
                acc subject.parents
            else .ok acc)
      else .ok acc)

/-- The per-subject body of the subjects section of
`NotificationSchedule.gaia_users_models_for_subject_group`: when the
subject group has no jobs, the not-booked filters emit jobless (and
subject-less) bundles; otherwise every job of the group is visited. -/
def sgSubjectStep (s : Schedule) (sg : SubjectGroup) (acc : List Bundle)
    (subject : Subject) : Except PyErr (List Bundle) :=
  if sg.jobs = [] then
    stepThen
      (if s.subjects_not_booked then
        unique_gaia_users_models acc subject.gaia_user
          (some sg.id) none none none none none
      else .ok acc)
      (fun acc =>
        if s.subjects_parents_not_booked then
          foldE (fun acc gaia_user =>
            unique_gaia_users_models acc gaia_user
              (some sg.id) none none none none none) acc subject.parents
        else .ok acc)
  else foldE (sgSubjectJobStep s sg subject) acc sg.jobs

/-- `NotificationSchedule.gaia_users_models_for_subject_group`: jobs of
the group (employees and clients per job), then the group's own client,
then the subjects section. -/
def Schedule.gaia_users_models_for_subject_group (s : Schedule) (sg : SubjectGroup) :
    Except PyErr (List Bundle) :=
  stepThen
    (stepThen (stepThen (foldE (sgJobStep s sg) [] sg.jobs) (sgOwnClientPerson s sg))
      (sgOwnClientSchool s sg))
    (fun acc =>
      if s.subjects_booked ∨ s.subjects_parents_booked ∨
         s.subjects_not_booked ∨ s.subjects_parents_not_booked then
        foldE (sgSubjectStep s sg) acc sg.subjects
      else .ok acc)

/-- The final `if gaia_users_models:` truthiness check of
`NotificationSchedule.run_notification_schedule`: both `None` and the
empty list suppress the send. -/
def truthyAudience (gum : Option (List Bundle)) : Option (List Bundle) :=
  match gum with
  | some l => if l.isEmpty then none else some l
  | none => none

/-- `NotificationSchedule.run_notification_schedule`, up to the audience
handed to `send_notifications`: `.ok (some l)` means `send_notifications`
is invoked with `l`, `.ok none` means no send happens, `.error` means the
run raises.  Note the subject-group branch of the source resolves the
audience through `job_gaia_users_models(subject_group)`, not through
`gaia_users_models_for_subject_group`. -/
def Schedule.run_notification_schedule (s : Schedule) (job : Option Job)
    (subject_group : Option SubjectGroup) (instant : Int) :
    Except PyErr (Option (List Bundle)) :=
  let after_job : Except PyErr (Option (List Bundle)) :=
    match job with
    | some j =>
      if (s.job_within_notification_window j instant).within then
        match s.job_gaia_users_models j.as_duck with
        | .ok l => .ok (some l)
        | .error e => .error e
      else .ok none
    | none => .ok none
  match after_job with
  | .error e => .error e
  | .ok gum1 =>
    let after_sg : Except PyErr (Option (List Bundle)) :=
      match subject_group with
      | some g =>
        if (s.subject_group_within_notification_window g instant).within then
          match s.job_gaia_users_models g.as_duck with
          | .ok l => .ok (some l)
          | .error e => .error e
        else .ok gum1
      | none => .ok gum1
    match after_sg with
    | .error e => .error e
    | .ok gum2 => .ok (truthyAudience gum2)

/-- Rewriting of the job `after_end_trigger` elif chain as a plain
disjunction. -/
theorem job_after_end_iff (s : Schedule) (job : Job) (i : Int) :
    s.job_after_end_trigger job i = true ↔
      s.job_after_start_trigger job i = true ∧
        (s.end_at_passed i = true ∨
          (s.end_trigger = some .untilJobStart ∧ i > job.start_time)) := by
  unfold Schedule.job_after_end_trigger
  by_cases h1 : s.job_after_start_trigger job i = true <;>
    by_cases h2 : s.end_at_passed i = true <;>
      simp [h1, h2]

/-- Rewriting of the subject-group `after_end_trigger` elif chain as a
plain disjunction. -/
theorem subject_group_after_end_iff (s : Schedule) (sg : SubjectGroup) (i : Int) :
    s.subject_group_after_end_trigger sg i = true ↔
      s.subject_group_after_start_trigger sg i = true ∧
        (s.end_at_passed i = true ∨
          (s.end_trigger = some .endDateOnSubjectGroup ∧ i > sg.end_time)) := by
  unfold Schedule.subject_group_after_end_trigger
  by_cases h1 : s.subject_group_after_start_trigger sg i = true <;>
    by_cases h2 : s.end_at_passed i = true <;>
      simp [h1, h2]

/-- An `end_at` that has passed stays passed at any later instant. -/
theorem end_at_passed_mono (s : Schedule) (t t' : Int)
    (h : s.end_at_passed t = true) (hle : t ≤ t') : s.end_at_passed t' = true := by
  unfold Schedule.end_at_passed at h ⊢
  cases he : s.end_at with
  | none => rw [he] at h; simp at h
  | some e => rw [he] at h; simp at h ⊢; omega

/-- A shared concrete job used by the evaluator counterexamples and
witnesses. -/
def jobA : Job := ⟨3, 1000, 2000, [], [], [], []⟩

/-- Concrete recurring schedule for the claim-1 counterexample:
`After job saved` start trigger, no end condition, cadence two days,
`last_sent_at = 0`. -/
def sched1c : Schedule :=
  ⟨true, .days, 2, some .afterJobSaved, none, none, some 0,
    false, false, false, false, false, false, false, false, false, false, false⟩

/-- Claim C1 as stated is false for job roots: with the window open
(start trigger fired, no end condition), cadence two days and
`last_sent_at = 0`, evaluation of a job root at `instant = 86400`
(one day later, inside the cadence) still reports eligible, because
`job_within_notification_window` consults the recurrence spacing only
once `after_end_trigger` holds. -/
theorem claim1_counterexample :
    sched1c.recurring = true ∧ sched1c.last_sent_at = some 0 ∧
    sched1c.job_after_start_trigger jobA 86400 = true ∧
    sched1c.job_after_end_trigger jobA 86400 = false ∧
    (86400 : Int) - 0 < sched1c.recurrence_delta_duration ∧
    (sched1c.job_within_notification_window jobA 86400).within = true := by
  refine ⟨rfl, rfl, by decide, by decide, by decide, by decide⟩

/-- Claim C1 amended: for a recurring schedule with an open window and
`last_sent_at = t`, a subject-group root is eligible exactly when
`instant - t` has reached the cadence duration; a job root with an open
window is eligible regardless of the recurrence spacing (the spacing
check applies to job roots only once the end condition is reached). -/
theorem claim1_amended :
    (∀ (s : Schedule) (sg : SubjectGroup) (instant t : Int),
      s.recurring = true → s.last_sent_at = some t →
      s.subject_group_after_start_trigger sg instant = true →
      s.subject_group_after_end_trigger sg instant = false →
      ((s.subject_group_within_notification_window sg instant).within = true ↔
        s.recurrence_delta_duration ≤ instant - t)) ∧
    (∀ (s : Schedule) (job : Job) (instant : Int),
      s.recurring = true →
      s.job_after_start_trigger job instant = true →
      s.job_after_end_trigger job instant = false →
      (s.job_within_notification_window job instant).within = true) := by
  constructor
  · intro s sg instant t hrec hlast hstart hend
    unfold Schedule.subject_group_within_notification_window
    rw [hstart, hend, hrec]
    simp only [Bool.not_false, Bool.and_true, Bool.true_and, if_true]
    unfold Schedule.within_recurring_notification_window
    rw [hlast]
    show (if instant - t < s.recurrence_delta_duration then false else true) = true ↔ _
    split_ifs with h
    · simp; omega
    · simp; omega
  · intro s job instant hrec hstart hend
    unfold Schedule.job_within_notification_window
    rw [hstart, hend, hrec]
    simp

/-- Concrete recurring schedule for the claim-1 witness:
`After photos available` start trigger, cadence two days,
`last_sent_at = 0`. -/
def sched1w : Schedule :=
  ⟨true, .days, 2, some .afterPhotosAvailable, none, none, some 0,
    false, false, false, false, false, false, false, false, false, false, false⟩

/-- A concrete subject group with photos available. -/
def sgA : SubjectGroup := ⟨1, true, 0, 10, ⟨4, "Person", 9, []⟩, [], []⟩

/-- Witness for the amended claim 1: the subject-group root is eligible
three days (259200 s) after `last_sent_at = 0` with a two-day cadence. -/
theorem claim1_amended_witness :
    (sched1w.subject_group_within_notification_window sgA 259200).within = true :=
  (claim1_amended.1 sched1w sgA 259200 0 rfl rfl (by decide) (by decide)).mpr (by decide)

/-- Concrete non-recurring schedule for the claim-5 counterexample:
`After job saved`, no end condition, `last_sent_at` unset. -/
def sched5c : Schedule :=
  ⟨false, .days, 1, some .afterJobSaved, none, none, none,
    false, false, false, false, false, false, false, false, false, false, false⟩

/-- Claim C5 as stated is false for job roots: a non-recurring schedule
with an open window is marked for deactivation even though
`last_sent_at` is unset (the job branch omits the `last_sent_at`
conjunct that the subject-group branch has). -/
theorem claim5_counterexample :
    sched5c.recurring = false ∧ sched5c.last_sent_at = none ∧
    sched5c.job_after_start_trigger jobA 50 = true ∧
    sched5c.job_after_end_trigger jobA 50 = false ∧
    (sched5c.job_within_notification_window jobA 50).deactivate = true := by
  refine ⟨rfl, rfl, by decide, by decide, by decide⟩

/-- Claim C5 amended: in an open window, a non-recurring subject-group
evaluation deactivates exactly when `last_sent_at` is set, while a
non-recurring job evaluation deactivates unconditionally. -/
theorem claim5_amended :
    (∀ (s : Schedule) (sg : SubjectGroup) (instant : Int),
      s.recurring = false →
      s.subject_group_after_start_trigger sg instant = true →
      s.subject_group_after_end_trigger sg instant = false →
      ((s.subject_group_within_notification_window sg instant).deactivate = true ↔
        s.last_sent_at.isSome = true)) ∧
    (∀ (s : Schedule) (job : Job) (instant : Int),
      s.recurring = false →
      s.job_after_start_trigger job instant = true →
      s.job_after_end_trigger job instant = false →
      (s.job_within_notification_window job instant).deactivate = true) := by
  constructor
  · intro s sg instant hrec hstart hend
    unfold Schedule.subject_group_within_notification_window
    rw [hstart, hend, hrec]
    simp
  · intro s job instant hrec hstart hend
    unfold Schedule.job_within_notification_window
    rw [hstart, hend, hrec]
    simp

/-- Concrete non-recurring schedule for the claim-5 witness:
`After photos available`, `last_sent_at = 0`. -/
def sched5w : Schedule :=
  ⟨false, .days, 1, some .afterPhotosAvailable, none, none, some 0,
    false, false, false, false, false, false, false, false, false, false, false⟩

/-- Witness for the amended claim 5: the subject-group evaluation with
`last_sent_at` set deactivates. -/
theorem claim5_amended_witness :
    (sched5w.subject_group_within_notification_window sgA 5).deactivate = true :=
  (claim5_amended.1 sched5w sgA 5 rfl (by decide) (by decide)).mpr rfl

/-- Concrete subject-group schedule for claim 2: `After photos
available` start trigger, only `subjects_not_booked` set. -/
def sched2 : Schedule :=
  ⟨false, .days, 1, some .afterPhotosAvailable, none, none, none,
    false, false, false, false, false, true, false, false, false, false, false⟩

/-- A subject group with one subject (gaia user 11) and no jobs. -/
def sg2 : SubjectGroup :=
  ⟨1, true, 0, 100, ⟨50, "School", 51, []⟩, [⟨10, 11, []⟩], []⟩

/-- Claim C2 is a code bug: with the window open, the dispatcher
resolves the subject-group audience through
`job_gaia_users_models(subject_group)` and raises `AttributeError`
reading `subject_group.subject_groups`, while the (never called)
subject-group audience algorithm resolves the one unbooked-subject
bundle the claim describes. -/
theorem claim2_divergence :
    sched2.run_notification_schedule none (some sg2) 5 = .error .attributeError ∧
    sched2.gaia_users_models_for_subject_group sg2 =
      .ok [⟨11, some 1, none, none, none, none, none⟩] :=
  ⟨rfl, rfl⟩

/-- Concrete job schedule for claim 3: `After job saved`, only
`subjects_booked` set. -/
def sched3 : Schedule :=
  ⟨false, .days, 1, some .afterJobSaved, none, none, none,
    false, false, false, true, false, false, false, false, false, false, false⟩

/-- A job with one subject group holding one subject (id 20, gaia user
21) who has a booked session (99) on the job. -/
def job3 : Job := ⟨7, 0, 10, [], [], [⟨2, [⟨20, 21, []⟩]⟩], [(20, 99)]⟩

/-- Claim C3 is a code bug: the subject of `job3` is booked (session 99)
and `subjects_booked` is set, yet the resolver raises `TypeError` at
`gaia_users_models["subject"] = subject` (a string-keyed assignment on
the output list) instead of emitting the bundle. -/
theorem claim3_divergence :
    sched3.subjects_booked = true ∧
    sessionLookup job3.sessions 20 = some 99 ∧
    sched3.job_gaia_users_models job3.as_duck = .error .typeError :=
  ⟨rfl, rfl, rfl⟩

/-- `unique_gaia_users_models` preserves freedom from duplicates: a
candidate dict equal to one already emitted is dropped. -/
theorem unique_ok_nodup {acc : List Bundle} {gu : Nat}
    {sg j se em cl su : Option Nat} {l : List Bundle}
    (h : unique_gaia_users_models acc gu sg j se em cl su = .ok l)
    (ha : acc.Nodup) : l.Nodup := by
  unfold unique_gaia_users_models at h
  cases su with
  | some x => simp at h
  | none =>
    simp only at h
    split_ifs at h with hmem
    · cases h; exact ha
    · cases h
      rw [List.nodup_append]
      exact ⟨ha, List.nodup_singleton _, by simp [List.disjoint_singleton, hmem]⟩

/-- Sequencing preserves freedom from duplicates. -/
theorem stepThen_ok_nodup {prev : Except PyErr (List Bundle)}
    {next : List Bundle → Except PyErr (List Bundle)} {l : List Bundle}
    (hp : ∀ m, prev = .ok m → m.Nodup)
    (hn : ∀ m m2, m.Nodup → next m = .ok m2 → m2.Nodup)
    (h : stepThen prev next = .ok l) : l.Nodup := by
  unfold stepThen at h
  cases hp2 : prev with
  | error e => rw [hp2] at h; simp at h
  | ok m => rw [hp2] at h; exact hn m l (hp m hp2) h

/-- A loop whose body preserves freedom from duplicates preserves it. -/
theorem foldE_ok_nodup {α : Type} {f : List Bundle → α → Except PyErr (List Bundle)}
    (hf : ∀ acc x l, acc.Nodup → f acc x = .ok l → l.Nodup) :
    ∀ (xs : List α) (acc l : List Bundle), acc.Nodup → foldE f acc xs = .ok l → l.Nodup := by
  intro xs
  induction xs with
  | nil =>
    intro acc l ha h
    unfold foldE at h
    cases h
    exact ha
  | cons x rest ih =>
    intro acc l ha h
    unfold foldE at h
    cases hx : f acc x with
    | error e => rw [hx] at h; simp at h
    | ok acc2 => rw [hx] at h; exact ih acc2 l (hf acc x acc2 ha hx) h

/-- The employees section preserves freedom from duplicates. -/
theorem jobEmployeesSection_nodup (s : Schedule) (ja : JobLike) :
    ∀ (acc : List Bundle) (l : List Bundle), acc.Nodup →
      jobEmployeesSection s ja acc = .ok l → l.Nodup := by
  intro acc l ha h
  unfold jobEmployeesSection at h
  split at h
  · split at h
    · simp at h
    · exact foldE_ok_nodup (fun a x l2 ha2 hx => unique_ok_nodup hx ha2) _ acc l ha h
  · cases h; exact ha

/-- The per-client step of the job clients section preserves freedom
from duplicates. -/
theorem jobClientStep_nodup (s : Schedule) (ja : JobLike) :
    ∀ (acc : List Bundle) (client : Client) (l : List Bundle), acc.Nodup →
      jobClientStep s ja acc client = .ok l → l.Nodup := by
  intro acc client l ha h
  unfold jobClientStep at h
  refine stepThen_ok_nodup ?_ ?_ h
  · intro m hm
    split at hm
    · exact unique_ok_nodup hm ha
    · cases hm; exact ha
  · intro m m2 hmn hm
    split at hm
    · exact foldE_ok_nodup (fun a x l2 ha2 hx => unique_ok_nodup hx ha2) _ m m2 hmn hm
    · cases hm; exact hmn

/-- The clients section preserves freedom from duplicates. -/
theorem jobClientsSection_nodup (s : Schedule) (ja : JobLike) :
    ∀ (acc : List Bundle) (l : List Bundle), acc.Nodup →
      jobClientsSection s ja acc = .ok l → l.Nodup := by
  intro acc l ha h
  unfold jobClientsSection at h
  split at h
  · split at h
    · simp at h
    · exact foldE_ok_nodup (fun a x l2 ha2 hx => jobClientStep_nodup s ja a x l2 ha2 hx) _ acc l ha h
  · cases h; exact ha

/-- The per-subject step of the job subjects section preserves freedom
from duplicates. -/
theorem jobSubjectStep_nodup (s : Schedule) (ja : JobLike) (sgc : SubjectGroupCore) :
    ∀ (acc : List Bundle) (subject : Subject) (l : List Bundle), acc.Nodup →
      jobSubjectStep s ja sgc acc subject = .ok l → l.Nodup := by
  intro acc subject l ha h
  unfold jobSubjectStep at h
  split at h
  · simp at h
  · refine stepThen_ok_nodup ?_ ?_ h
    · intro m hm
      split at hm
      · refine stepThen_ok_nodup ?_ ?_ hm
        · intro m0 hm0
          split at hm0
          · exact unique_ok_nodup hm0 ha
          · cases hm0; exact ha
        · intro m0 m1 hm0 hm1
          split at hm1
          · exact foldE_ok_nodup (fun a x l2 ha2 hx => unique_ok_nodup hx ha2) _ m0 m1 hm0 hm1
          · cases hm1; exact hm0
      · cases hm; exact ha
    · intro m m2 hmn hm
      split at hm
      · refine stepThen_ok_nodup ?_ ?_ hm
        · intro m0 hm0
          split at hm0
          · exact unique_ok_nodup hm0 hmn
          · cases hm0; exact hmn
        · intro m0 m1 hm0 hm1
          split at hm1
          · exact foldE_ok_nodup (fun a x l2 ha2 hx => unique_ok_nodup hx ha2) _ m0 m1 hm0 hm1
          · cases hm1; exact hm0
      · cases hm; exact hmn

/-- The subjects section preserves freedom from duplicates. -/
theorem jobSubjectsSection_nodup (s : Schedule) (ja : JobLike) :
    ∀ (acc : List Bundle) (l : List Bundle), acc.Nodup →
      jobSubjectsSection s ja acc = .ok l → l.Nodup := by
  intro acc l ha h
  unfold jobSubjectsSection at h
  split at h
  · split at h
    · simp at h
    · exact foldE_ok_nodup
        (fun a sgc l2 ha2 hx =>
          foldE_ok_nodup (fun a2 x l3 ha3 hx2 => jobSubjectStep_nodup s ja sgc a2 x l3 ha3 hx2)
            sgc.subjects a l2 ha2 hx) _ acc l ha h
  · cases h; exact ha

/-- The per-client step of the subject-group jobs loop preserves
freedom from duplicates. -/
theorem sgClientStep_nodup (s : Schedule) (sg : SubjectGroup) (job : Job) :
    ∀ (acc : List Bundle) (client : Client) (l : List Bundle), acc.Nodup →
      sgClientStep s sg job acc client = .ok l → l.Nodup := by
  intro acc client l ha h
  unfold sgClientStep at h
  refine stepThen_ok_nodup ?_ ?_ h
  · intro m hm
    split at hm
    · exact unique_ok_nodup hm ha
    · cases hm; exact ha
  · intro m m2 hmn hm
    split at hm
    · exact foldE_ok_nodup (fun a x l2 ha2 hx => unique_ok_nodup hx ha2) _ m m2 hmn hm
    · cases hm; exact hmn

/-- The per-job step of the subject-group resolver preserves freedom
from duplicates. -/
theorem sgJobStep_nodup (s : Schedule) (sg : SubjectGroup) :
    ∀ (acc : List Bundle) (job : Job) (l : List Bundle), acc.Nodup →
      sgJobStep s sg acc job = .ok l → l.Nodup := by
  intro acc job l ha h
  unfold sgJobStep at h
  refine stepThen_ok_nodup ?_ ?_ h
  · intro m hm
    split at hm
    · exact foldE_ok_nodup (fun a x l2 ha2 hx => unique_ok_nodup hx ha2) _ acc m ha hm
    · cases hm; exact ha
  · intro m m2 hmn hm
    split at hm
    · exact foldE_ok_nodup (fun a x l2 ha2 hx => sgClientStep_nodup s sg job a x l2 ha2 hx) _ m m2 hmn hm
    · cases hm; exact hmn

/-- The per-subject-per-job step of the subject-group resolver preserves
freedom from duplicates. -/
theorem sgSubjectJobStep_nodup (s : Schedule) (sg : SubjectGroup) (subject : Subject) :
    ∀ (acc : List Bundle) (job : Job) (l : List Bundle), acc.Nodup →
      sgSubjectJobStep s sg subject acc job = .ok l → l.Nodup := by
  intro acc job l ha h
  unfold sgSubjectJobStep at h
  refine stepThen_ok_nodup ?_ ?_ h
  · intro m hm
    split at hm
    · refine stepThen_ok_nodup ?_ ?_ hm
      · intro m0 hm0
        split at hm0
        · exact unique_ok_nodup hm0 ha
        · cases hm0; exact ha
      · intro m0 m1 hm0 hm1
        split at hm1
        · exact foldE_ok_nodup (fun a x l2 ha2 hx => unique_ok_nodup hx ha2) _ m0 m1 hm0 hm1
        · cases hm1; exact hm0
    · cases hm; exact ha
  · intro m m2 hmn hm
    split at hm
    · refine stepThen_ok_nodup ?_ ?_ hm
      · intro m0 hm0
        split at hm0
        · exact unique_ok_nodup hm0 hmn
        · cases hm0; exact hmn
      · intro m0 m1 hm0 hm1
        split at hm1
        · exact foldE_ok_nodup (fun a x l2 ha2 hx => unique_ok_nodup hx ha2) _ m0 m1 hm0 hm1
        · cases hm1; exact hm0
    · cases hm; exact hmn

/-- The per-subject step of the subject-group resolver preserves
freedom from duplicates. -/
theorem sgSubjectStep_nodup (s : Schedule) (sg : SubjectGroup) :
    ∀ (acc : List Bundle) (subject : Subject) (l : List Bundle), acc.Nodup →
      sgSubjectStep s sg acc subject = .ok l → l.Nodup := by
  intro acc subject l ha h
  unfold sgSubjectStep at h
  split at h
  · refine stepThen_ok_nodup ?_ ?_ h
    · intro m hm
      split at hm
      · exact unique_ok_nodup hm ha
      · cases hm; exact ha
    · intro m m2 hmn hm
      split at hm
      · exact foldE_ok_nodup (fun a x l2 ha2 hx => unique_ok_nodup hx ha2) _ m m2 hmn hm
      · cases hm; exact hmn
  · exact foldE_ok_nodup (fun a x l2 ha2 hx => sgSubjectJobStep_nodup s sg subject a x l2 ha2 hx)
      _ acc l ha h

/-- Claim C4: whenever an audience resolver returns a sequence of
context bundles (for either root kind), no two bundles in it have
identical values at every slot; duplicates are dropped at emission. -/
theorem claim4_dedup :
    (∀ (s : Schedule) (ja : JobLike) (l : List Bundle),
      s.job_gaia_users_models ja = .ok l → l.Nodup) ∧
    (∀ (s : Schedule) (sg : SubjectGroup) (l : List Bundle),
      s.gaia_users_models_for_subject_group sg = .ok l → l.Nodup) := by
  constructor
  · intro s ja l h
    unfold Schedule.job_gaia_users_models at h
    refine stepThen_ok_nodup ?_ (fun m m2 hm h2 => jobSubjectsSection_nodup s ja m m2 hm h2) h
    intro m hm
    refine stepThen_ok_nodup ?_ (fun a b hb h2 => jobClientsSection_nodup s ja a b hb h2) hm
    intro m0 hm0
    exact jobEmployeesSection_nodup s ja [] m0 List.nodup_nil hm0
  · intro s sg l h
    unfold Schedule.gaia_users_models_for_subject_group at h
    refine stepThen_ok_nodup ?_ ?_ h
    · intro m hm
      refine stepThen_ok_nodup ?_ ?_ hm
      · intro m0 hm0
        refine stepThen_ok_nodup ?_ ?_ hm0
        · intro m1 hm1
          exact foldE_ok_nodup (fun a x l2 ha2 hx => sgJobStep_nodup s sg a x l2 ha2 hx)
            sg.jobs [] m1 List.nodup_nil hm1
        · intro m1 m2 hm1 hm2
          unfold sgOwnClientPerson at hm2
          split at hm2
          · exact unique_ok_nodup hm2 hm1
          · cases hm2; exact hm1
      · intro m0 m1 hm0 hm1
        unfold sgOwnClientSchool at hm1
        split at hm1
        · exact unique_ok_nodup hm1 hm0
        · cases hm1; exact hm0
    · intro m m2 hmn hm
      split at hm
      · exact foldE_ok_nodup (fun a x l2 ha2 hx => sgSubjectStep_nodup s sg a x l2 ha2 hx)
          _ m m2 hmn hm
      · cases hm; exact hmn

/-- Concrete job schedule with the employees filter, for the claim-4
witness. -/
def sched4 : Schedule :=
  ⟨false, .days, 1, some .afterJobSaved, none, none, none,
    false, false, false, false, false, false, false, true, false, false, false⟩

/-- A job with two employees. -/
def job4 : Job := ⟨5, 0, 10, [⟨100, 200⟩, ⟨101, 201⟩], [], [], []⟩

/-- Witness for claim 4: a concrete resolver run returns two bundles
with no duplicates. -/
theorem claim4_dedup_witness :
    sched4.job_gaia_users_models job4.as_duck =
      .ok [⟨200, none, some 5, none, some 100, none, none⟩,
        ⟨201, none, some 5, none, some 101, none, none⟩] ∧
    ([⟨200, none, some 5, none, some 100, none, none⟩,
      ⟨201, none, some 5, none, some 101, none, none⟩] : List Bundle).Nodup :=
  ⟨rfl, claim4_dedup.1 sched4 job4.as_duck _ rfl⟩

/-- Concrete non-recurring schedule for the claim-9 counterexample:
`After job saved`, no end condition. -/
def sched9c : Schedule :=
  ⟨false, .days, 1, some .afterJobSaved, none, none, none,
    false, false, false, false, false, false, false, false, false, false, false⟩

/-- Claim C9 as stated is false: this non-recurring evaluation reports
`should_deactivate` at instant 0, yet the evaluation at the later
instant 5 still reports eligible (the window functions never read the
persisted `active` flag). -/
theorem claim9_counterexample :
    sched9c.recurring = false ∧
    (sched9c.job_within_notification_window jobA 0).deactivate = true ∧
    ((0 : Int) ≤ 5) ∧
    (sched9c.job_within_notification_window jobA 5).within = true := by
  refine ⟨rfl, by decide, by decide, by decide⟩

/-- Claim C9 amended: for a non-recurring schedule, once the evaluation
reports the end condition reached (`after_end_trigger`), every
evaluation at the same or a later instant reports not eligible; a
`should_deactivate` arising from the open-window self-retire branch
carries no such guarantee. -/
theorem claim9_amended :
    (∀ (s : Schedule) (job : Job) (t t' : Int),
      s.recurring = false →
      s.job_after_end_trigger job t = true → t ≤ t' →
      (s.job_within_notification_window job t').within = false) ∧
    (∀ (s : Schedule) (sg : SubjectGroup) (t t' : Int),
      s.recurring = false →
      s.subject_group_after_end_trigger sg t = true → t ≤ t' →
      (s.subject_group_within_notification_window sg t').within = false) := by
  constructor
  · intro s job t t' hrec hend hle
    unfold Schedule.job_within_notification_window
    rw [hrec]
    simp only [Bool.and_false]
    rw [if_neg (by simp)]
    by_cases hstart : s.job_after_start_trigger job t' = true
    · rw [job_after_end_iff] at hend
      obtain ⟨_, hcase⟩ := hend
      have hend' : s.job_after_end_trigger job t' = true := by
        rw [job_after_end_iff]
        refine ⟨hstart, ?_⟩
        rcases hcase with h | ⟨htrig, hgt⟩
        · exact Or.inl (end_at_passed_mono s t t' h hle)
        · exact Or.inr ⟨htrig, by omega⟩
      rw [hstart, hend']
      rfl
    · have hstart0 : s.job_after_start_trigger job t' = false := by
        simpa using hstart
      rw [hstart0]
      rfl
  · intro s sg t t' hrec hend hle
    unfold Schedule.subject_group_within_notification_window
    rw [hrec]
    simp only [Bool.and_false]
    rw [if_neg (by simp)]
    by_cases hstart : s.subject_group_after_start_trigger sg t' = true
    · rw [subject_group_after_end_iff] at hend
      obtain ⟨_, hcase⟩ := hend
      have hend' : s.subject_group_after_end_trigger sg t' = true := by
        rw [subject_group_after_end_iff]
        refine ⟨hstart, ?_⟩
        rcases hcase with h | ⟨htrig, hgt⟩
        · exact Or.inl (end_at_passed_mono s t t' h hle)
        · exact Or.inr ⟨htrig, by omega⟩
      rw [hstart, hend']
      rfl
    · have hstart0 : s.subject_group_after_start_trigger sg t' = false := by
        simpa using hstart
      rw [hstart0]
      rfl

/-- Concrete non-recurring schedule for the claim-9 witness:
`After job saved`, explicit `end_at = 10`. -/
def sched9w : Schedule :=
  ⟨false, .days, 1, some .afterJobSaved, some 10, none, none,
    false, false, false, false, false, false, false, false, false, false, false⟩

/-- Witness for the amended claim 9: the end condition is reached at
instant 20, and the evaluation at a later instant 30 is not eligible. -/
theorem claim9_amended_witness :
    (sched9w.job_within_notification_window jobA 30).within = false :=
  claim9_amended.1 sched9w jobA 20 30 rfl (by decide) (by decide)

/-- Claim C10: for every recurring schedule whose `last_sent_at` is
unset, the recurrence-spacing check reports within-window regardless of
the current instant and of the cadence unit and count. -/
theorem claim10_first_send (s : Schedule) (instant : Int)
    (_hrec : s.recurring = true) (hlast : s.last_sent_at = none) :
    s.within_recurring_notification_window instant = true := by
  unfold Schedule.within_recurring_notification_window
  rw [hlast]

/-- Concrete recurring schedule with `last_sent_at` unset. -/
def sched10 : Schedule :=
  ⟨true, .weeks, 5, none, none, none, none,
    false, false, false, false, false, false, false, false, false, false, false⟩

/-- Witness for claim 10 at a concrete instant. -/
theorem claim10_first_send_witness :
    sched10.recurring = true ∧ sched10.last_sent_at = none ∧
    sched10.within_recurring_notification_window 12345 = true :=
  ⟨rfl, rfl, claim10_first_send sched10 12345 rfl rfl⟩

/-- The outcome of one channel's send loop
(`send_email_notifications` / `send_sms_notifications`): which bundles a
send was attempted for, the uncaught exception if one was raised, and
whether `set_last_sent_at` ran. -/
structure ChannelOutcome where
  attempted : List Bundle
  err : Option PyErr
  last_sent_updated : Bool
  deriving Repr

/-- The bare send loop: attempt each bundle in order through the
connector (`conn b = false` means the connector call raised); the first
raise stops the loop and propagates, skipping the remaining bundles. -/
def send_loop (conn : Bundle → Bool) : List Bundle → List Bundle × Option PyErr
  | [] => ([], none)
  | b :: rest =>
    if conn b then
      let r := send_loop conn rest
      (b :: r.1, r.2)
    else ([b], some .channelError)

/-- The shared body of `send_email_notifications` and
`send_sms_notifications`: loop over the cohort with no exception
handling, then call `set_last_sent_at` only if the loop completed and
set the `sent` flag (which it does exactly when the cohort is
nonempty). -/
def send_channel_notifications (conn : Bundle → Bool) (gaia_users_models : List Bundle) :
    ChannelOutcome :=
  let r := send_loop conn gaia_users_models
  match r.2 with
  | some e => ⟨r.1, some e, false⟩
  | none => ⟨r.1, none, !gaia_users_models.isEmpty⟩

/-- `NotificationSchedule.send_email_notifications`. -/
def send_email_notifications (conn : Bundle → Bool) (gaia_users_models : List Bundle) :
    ChannelOutcome :=
  send_channel_notifications conn gaia_users_models

/-- `NotificationSchedule.send_sms_notifications`. -/
def send_sms_notifications (conn : Bundle → Bool) (gaia_users_models : List Bundle) :
    ChannelOutcome :=
  send_channel_notifications conn gaia_users_models

/-- A channel that was never entered. -/
def untouchedChannel : ChannelOutcome := ⟨[], none, false⟩

/-- The combined outcome of `NotificationSchedule.send_notifications`:
per-channel outcomes and the first uncaught exception. -/
structure DispatchResult where
  email : ChannelOutcome
  sms : ChannelOutcome
  err : Option PyErr
  deriving Repr

/-- `NotificationSchedule.send_notifications`: email then SMS then Slack
(`send_slack_notifications` is `pass`), sequentially and with no
exception handling, so an exception raised in one channel skips the
later channels entirely. -/
def Schedule.send_notifications (s : Schedule) (email_conn sms_conn : Bundle → Bool)
    (gaia_users_models : List Bundle) : DispatchResult :=
  let email := if s.smtp_connector then send_email_notifications email_conn gaia_users_models
    else untouchedChannel
  match email.err with
  | some e => ⟨email, untouchedChannel, some e⟩
  | none =>
    let sms := if s.twilio_connector then send_sms_notifications sms_conn gaia_users_models
      else untouchedChannel
    match sms.err with
    | some e => ⟨email, sms, some e⟩
    | none => ⟨email, sms, none⟩

/-- Concrete schedule with email and SMS connectors configured. -/
def sched6 : Schedule :=
  ⟨false, .days, 1, some .afterJobSaved, none, none, none,
    false, false, false, false, false, false, false, true, true, true, false⟩

/-- Three concrete recipient bundles. -/
def bundle1 : Bundle := ⟨1, none, none, none, none, none, none⟩

/-- Second concrete recipient bundle. -/
def bundle2 : Bundle := ⟨2, none, none, none, none, none, none⟩

/-- Third concrete recipient bundle. -/
def bundle3 : Bundle := ⟨3, none, none, none, none, none, none⟩

/-- An email connector that raises exactly for gaia user 2. -/
def emailConn6 : Bundle → Bool := fun b => !(b.gaia_user == 2)

/-- An SMS connector that succeeds for everyone. -/
def smsConn6 : Bundle → Bool := fun _ => true

/-- Claim C6 as stated is false: the email connector succeeds for
`bundle1` and raises for `bundle2`; the raise aborts the loop
(`bundle3` is never attempted), the SMS channel - which would succeed
for every recipient - is never entered, the exception propagates
un-aggregated, and `last_sent_at` is not updated despite the successful
delivery to `bundle1`. -/
theorem claim6_counterexample :
    emailConn6 bundle1 = true ∧ emailConn6 bundle2 = false ∧ emailConn6 bundle3 = true ∧
    (sched6.send_notifications emailConn6 smsConn6 [bundle1, bundle2, bundle3]).email.attempted
      = [bundle1, bundle2] ∧
    (sched6.send_notifications emailConn6 smsConn6 [bundle1, bundle2, bundle3]).email.last_sent_updated
      = false ∧
    (sched6.send_notifications emailConn6 smsConn6 [bundle1, bundle2, bundle3]).sms.attempted
      = [] ∧
    (sched6.send_notifications emailConn6 smsConn6 [bundle1, bundle2, bundle3]).err
      = some .channelError :=
  ⟨rfl, rfl, rfl, rfl, rfl, rfl, rfl⟩

/-- A send loop over all-successful deliveries attempts every bundle and
raises nothing. -/
theorem send_loop_all_ok (conn : Bundle → Bool) :
    ∀ (ms : List Bundle), (∀ b ∈ ms, conn b = true) →
      send_loop conn ms = (ms, none) := by
  intro ms
  induction ms with
  | nil => intro _; rfl
  | cons b rest ih =>
    intro h
    unfold send_loop
    rw [h b (by simp)]
    simp [ih (fun x hx => h x (by simp [hx]))]

/-- A send loop stops at its first raising delivery: the successful
prefix and the failing bundle are attempted, nothing after. -/
theorem send_loop_first_fail (conn : Bundle → Bool) :
    ∀ (pre post : List Bundle) (b : Bundle), (∀ x ∈ pre, conn x = true) →
      conn b = false →
      send_loop conn (pre ++ b :: post) = (pre ++ [b], some .channelError) := by
  intro pre
  induction pre with
  | nil =>
    intro post b _ hb
    simp [send_loop, hb]
  | cons p rest ih =>
    intro post b h hb
    have hp : conn p = true := h p (by simp)
    simp only [List.cons_append, send_loop, hp, if_true]
    simp [ih post b (fun x hx => h x (by simp [hx])) hb]

/-- Claim C6 amended: an uncaught connector raise for one recipient
aborts that channel's loop at that recipient and skips every later
channel; nothing is aggregated (the first exception propagates) and
`last_sent_at` is not updated for the aborted channel even when earlier
deliveries on it succeeded.  When every delivery of the email channel
succeeds, all bundles are attempted and `last_sent_at` is updated
exactly when the cohort is nonempty. -/
theorem claim6_amended :
    (∀ (s : Schedule) (email_conn sms_conn : Bundle → Bool)
      (pre post : List Bundle) (b : Bundle),
      s.smtp_connector = true →
      (∀ x ∈ pre, email_conn x = true) → email_conn b = false →
      (s.send_notifications email_conn sms_conn (pre ++ b :: post)).email.attempted
          = pre ++ [b] ∧
        (s.send_notifications email_conn sms_conn (pre ++ b :: post)).email.last_sent_updated
          = false ∧
        (s.send_notifications email_conn sms_conn (pre ++ b :: post)).sms
          = untouchedChannel ∧
        (s.send_notifications email_conn sms_conn (pre ++ b :: post)).err
          = some .channelError) ∧
    (∀ (s : Schedule) (email_conn sms_conn : Bundle → Bool) (ms : List Bundle),
      s.smtp_connector = true → s.twilio_connector = false →
      (∀ x ∈ ms, email_conn x = true) →
      (s.send_notifications email_conn sms_conn ms).email.attempted = ms ∧
        (s.send_notifications email_conn sms_conn ms).email.last_sent_updated
          = !ms.isEmpty) := by
  constructor
  · intro s email_conn sms_conn pre post b hsmtp hpre hb
    unfold Schedule.send_notifications
    rw [hsmtp]
    simp only [if_true]
    unfold send_email_notifications send_channel_notifications
    rw [send_loop_first_fail email_conn pre post b hpre hb]
    exact ⟨rfl, rfl, rfl, rfl⟩
  · intro s email_conn sms_conn ms hsmtp htw h
    unfold Schedule.send_notifications
    rw [hsmtp, htw]
    simp only [if_true, if_false]
    unfold send_email_notifications send_channel_notifications
    rw [send_loop_all_ok email_conn ms h]
    exact ⟨rfl, rfl⟩

/-- Witness for the amended claim 6 at a concrete cohort: `bundle1`
succeeds, `bundle2` raises, `bundle3` is skipped along with the SMS
channel. -/
theorem claim6_amended_witness :
    (sched6.send_notifications emailConn6 smsConn6 [bundle1, bundle2, bundle3]).email.attempted
        = [bundle1, bundle2] ∧
      (sched6.send_notifications emailConn6 smsConn6 [bundle1, bundle2, bundle3]).email.last_sent_updated
        = false ∧
      (sched6.send_notifications emailConn6 smsConn6 [bundle1, bundle2, bundle3]).sms
        = untouchedChannel ∧
      (sched6.send_notifications emailConn6 smsConn6 [bundle1, bundle2, bundle3]).err
        = some .channelError :=
  claim6_amended.1 sched6 emailConn6 smsConn6 [bundle1] [bundle3] bundle2
    rfl (by decide) rfl

/-- Prefix test on character lists (for Python substring containment). -/
def isPre : List Char → List Char → Bool
  | [], _ => true
  | _ :: _, [] => false
  | p :: ps, c :: cs => p == c && isPre ps cs

/-- Substring occurrence on character lists. -/
def hasSub (pat : List Char) : List Char → Bool
  | [] => isPre pat []
  | c :: cs => isPre pat (c :: cs) || hasSub pat cs

/-- Python's `pat in s` substring containment. -/
def pyIn (pat s : String) : Bool := hasSub pat.data s.data

/-- Python's `s.split(sep)` for a one-character separator. -/
def splitChars (sep : Char) : List Char → List (List Char)
  | [] => [[]]
  | c :: cs =>
    let rest := splitChars sep cs
    if c == sep then [] :: rest
    else match rest with
      | [] => [[c]]
      | p :: ps => (c :: p) :: ps

/-- `context_value.split(".")`. -/
def pySplitDot (s : String) : List (List Char) := splitChars '.' s.data

/-- A Django model instance as seen by `getattr`: its attribute table.
`getattr` on a missing attribute raises `AttributeError`. -/
def Entity : Type := List (String × String)

/-- Attribute lookup on an entity by field name. -/
def fieldLookup : Entity → List Char → Option String
  | [], _ => none
  | (k, v) :: rest, f => if k.data = f then some v else fieldLookup rest f

/-- The `gaia_user_models` dict handed to
`ContextualNotificationTemplate.dynamic_context`: one optional entity
per slot the resolver reads with `.get(...)`. -/
structure ContextBundle where
  gaia_user : Option Entity
  subject_group : Option Entity
  job : Option Entity
  session : Option Entity
  employee : Option Entity
  client : Option Entity
  subject : Option Entity

/-- The entity kinds of the `dynamic_context` elif chain, in chain
order. -/
inductive EntityKind where
  | gaiaUser
  | subjectGroup
  | job
  | session
  | employee
  | client
  | subject
  deriving DecidableEq, Repr

/-- The slot of the bundle each chain branch reads. -/
def ContextBundle.slot (b : ContextBundle) : EntityKind → Option Entity
  | .gaiaUser => b.gaia_user
  | .subjectGroup => b.subject_group
  | .job => b.job
  | .session => b.session
  | .employee => b.employee
  | .client => b.client
  | .subject => b.subject

/-- The substring-containment elif chain of `dynamic_context`: the first
of the seven marker strings contained in the value wins, `none` when no
branch matches (in which case the loop body assigns nothing). -/
def matchEntityKind (context_value : String) : Option EntityKind :=
  if pyIn "GaiaUser" context_value then some .gaiaUser
  else if pyIn "SubjectGroup" context_value then some .subjectGroup
  else if pyIn "Job" context_value then some .job
  else if pyIn "Session" context_value then some .session
  else if pyIn "Employee" context_value then some .employee
  else if pyIn "Client" context_value then some .client
  else if pyIn "Subject" context_value then some .subject
  else none

/-- The `get_model_field` helper of `dynamic_context`:
`context_value.split(".")[1]` is computed first (raising `IndexError`
when the reference has no dot), then `getattr(model, field) if model
else None`. -/
def get_model_field (context_value : String) (model : Option Entity) :
    Except PyErr (Option String) :=
  match (pySplitDot context_value).get? 1 with
  | none => .error .indexError
  | some field =>
    match model with
    | some m =>
      match fieldLookup m field with
      | some v => .ok (some v)
      | none => .error .attributeError
    | none => .ok none

/-- One iteration of the `dynamic_context` loop over
`self.context.items()`: a value without `@` is copied verbatim; a value
matching a kind resolves through `get_model_field` against that kind's
slot; a value matching no kind assigns nothing. -/
def dynamic_context_step (b : ContextBundle) (acc : List (String × Option String))
    (key context_value : String) : Except PyErr (List (String × Option String)) :=
  if pyIn "@" context_value = false then .ok (acc ++ [(key, some context_value)])
  else
    match matchEntityKind context_value with
    | some kind =>
      match get_model_field context_value (b.slot kind) with
      | .ok v => .ok (acc ++ [(key, v)])
      | .error e => .error e
    | none => .ok acc

/-- The `dynamic_context` loop: fold the steps over the items of the
template's context specification (a JSON dict, so keys are unique and
the built-up `context` dict is an insertion-ordered association list). -/
def dynamic_context_loop (b : ContextBundle) (acc : List (String × Option String)) :
    List (String × String) → Except PyErr (List (String × Option String))
  | [] => .ok acc
  | (key, context_value) :: rest =>
    match dynamic_context_step b acc key context_value with
    | .ok acc2 => dynamic_context_loop b acc2 rest
    | .error e => .error e

/-- `ContextualNotificationTemplate.dynamic_context`. -/
def dynamic_context (ctx_spec : List (String × String)) (gaia_user_models : ContextBundle) :
    Except PyErr (List (String × Option String)) :=
  dynamic_context_loop gaia_user_models [] ctx_spec

/-- Well-formedness of one context-specification value against a bundle:
its resolution through `get_model_field` does not raise (the reference
is dotted, and the named field exists whenever the referenced slot is
present). -/
def entry_ok (b : ContextBundle) (v : String) : Bool :=
  if pyIn "@" v = false then true
  else
    match matchEntityKind v with
    | none => true
    | some kind =>
      match get_model_field v (b.slot kind) with
      | .ok _ => true
      | .error _ => false

/-- Resolving against an absent slot yields `None` whenever it does not
raise. -/
theorem get_model_field_none (v : String) (w : Option String)
    (h : get_model_field v none = .ok w) : w = none := by
  unfold get_model_field at h
  split at h
  · simp at h
  · cases h; rfl

/-- A step only ever appends entries carrying the processed key. -/
theorem dynamic_context_step_shape (b : ContextBundle)
    (acc : List (String × Option String)) (k v : String)
    (m : List (String × Option String))
    (h : dynamic_context_step b acc k v = .ok m) :
    ∃ tail, m = acc ++ tail ∧ ∀ x ∈ tail, x.1 = k := by
  unfold dynamic_context_step at h
  split at h
  · cases h
    exact ⟨[(k, some v)], rfl, by simp⟩
  · split at h
    · split at h
      · cases h
        rename_i val _
        exact ⟨[(k, val)], rfl, by simp⟩
      · simp at h
    · cases h
      exact ⟨[], by simp, by simp⟩

/-- The step of an entity reference that resolves without raising
appends the resolved value under the processed key. -/
theorem dynamic_context_step_resolved (b : ContextBundle)
    (acc : List (String × Option String)) (k v : String) (kind : EntityKind)
    (w : Option String)
    (hlit : ¬ pyIn "@" v = false) (hkind : matchEntityKind v = some kind)
    (hgm : get_model_field v (b.slot kind) = .ok w) :
    dynamic_context_step b acc k v = .ok (acc ++ [(k, w)]) := by
  unfold dynamic_context_step
  rw [if_neg hlit, hkind]
  show (match get_model_field v (b.slot kind) with
    | Except.ok w2 => Except.ok (acc ++ [(k, w2)])
    | Except.error e => Except.error e) = _
  rw [hgm]

/-- The step of a marker-carrying reference matching no kind assigns
nothing. -/
theorem dynamic_context_step_skip (b : ContextBundle)
    (acc : List (String × Option String)) (k v : String)
    (hlit : ¬ pyIn "@" v = false) (hkind : matchEntityKind v = none) :
    dynamic_context_step b acc k v = .ok acc := by
  unfold dynamic_context_step
  rw [if_neg hlit, hkind]

/-- A well-formed entity reference resolves without raising. -/
theorem entry_ok_gm (b : ContextBundle) (v : String) (kind : EntityKind)
    (h : entry_ok b v = true) (hlit : ¬ pyIn "@" v = false)
    (hkind : matchEntityKind v = some kind) :
    ∃ w, get_model_field v (b.slot kind) = .ok w := by
  unfold entry_ok at h
  rw [if_neg hlit] at h
  split at h
  · rename_i hkind2
    rw [hkind2] at hkind
    exact Option.noConfusion hkind
  · rename_i kind2 hkind2
    rw [hkind2] at hkind
    injection hkind with hk
    subst hk
    cases hgm : get_model_field v (b.slot kind2) with
    | error e => rw [hgm] at h; simp at h
    | ok w => exact ⟨w, rfl⟩

/-- A well-formed entry's step never raises. -/
theorem dynamic_context_step_ok (b : ContextBundle)
    (acc : List (String × Option String)) (k v : String)
    (h : entry_ok b v = true) :
    ∃ m, dynamic_context_step b acc k v = .ok m := by
  by_cases hlit : pyIn "@" v = false
  · refine ⟨acc ++ [(k, some v)], ?_⟩
    unfold dynamic_context_step
    rw [if_pos hlit]
  · cases hkind : matchEntityKind v with
    | none => exact ⟨acc, dynamic_context_step_skip b acc k v hlit hkind⟩
    | some kind =>
      obtain ⟨w, hgm⟩ := entry_ok_gm b v kind h hlit hkind
      exact ⟨_, dynamic_context_step_resolved b acc k v kind w hlit hkind hgm⟩

/-- A loop over well-formed entries never raises and only extends the
accumulator. -/
theorem dynamic_context_loop_prefix (b : ContextBundle) :
    ∀ (spec : List (String × String)) (acc : List (String × Option String)),
      (∀ p ∈ spec, entry_ok b p.2 = true) →
      ∃ ctx, dynamic_context_loop b acc spec = .ok ctx ∧ acc <+: ctx := by
  intro spec
  induction spec with
  | nil =>
    intro acc _
    exact ⟨acc, rfl, List.prefix_refl acc⟩
  | cons p rest ih =>
    intro acc hok
    obtain ⟨k, v⟩ := p
    obtain ⟨m, hm⟩ := dynamic_context_step_ok b acc k v (hok (k, v) (by simp))
    obtain ⟨ctx, hctx, hpre⟩ := ih m (fun q hq => hok q (by simp [hq]))
    refine ⟨ctx, ?_, ?_⟩
    · unfold dynamic_context_loop
      rw [hm]
      exact hctx
    · obtain ⟨tail, htail, _⟩ := dynamic_context_step_shape b acc k v m hm
      calc acc <+: m := htail ▸ List.prefix_append acc tail
        _ <+: ctx := hpre

/-- Claim C7: an entry whose reference carries the entity marker, names
an entity kind, and whose slot is absent from the bundle resolves to a
`None` value for its output key, and (all entries being well formed) the
resolution raises nothing. -/
theorem claim7_null_safety :
    ∀ (spec : List (String × String)) (b : ContextBundle) (key v : String)
      (kind : EntityKind),
      (∀ p ∈ spec, entry_ok b p.2 = true) →
      (key, v) ∈ spec →
      pyIn "@" v = true →
      matchEntityKind v = some kind →
      b.slot kind = none →
      ∃ ctx, dynamic_context spec b = .ok ctx ∧
        (key, (none : Option String)) ∈ ctx := by
  intro spec b key v kind hok hmem hat hkind hslot
  have hlit : ¬ pyIn "@" v = false := by simp [hat]
  unfold dynamic_context
  suffices h : ∀ (sp : List (String × String)) (acc : List (String × Option String)),
      (∀ p ∈ sp, entry_ok b p.2 = true) → (key, v) ∈ sp →
      ∃ ctx, dynamic_context_loop b acc sp = .ok ctx ∧
        (key, (none : Option String)) ∈ ctx by
    exact h spec [] hok hmem
  intro sp
  induction sp with
  | nil => intro acc _ hmem2; simp at hmem2
  | cons p rest ih =>
    intro acc hok2 hmem2
    obtain ⟨k2, v2⟩ := p
    rcases List.mem_cons.mp hmem2 with hhead | htail
    · rw [Prod.mk.injEq] at hhead
      obtain ⟨hk, hv⟩ := hhead
      subst hk
      subst hv
      have h2 : entry_ok b v = true := hok2 (key, v) (by simp)
      obtain ⟨w, hgm⟩ := entry_ok_gm b v kind h2 hlit hkind
      rw [hslot] at hgm
      have hw : w = none := get_model_field_none v w hgm
      subst hw
      have hstep : dynamic_context_step b acc key v = .ok (acc ++ [(key, none)]) := by
        refine dynamic_context_step_resolved b acc key v kind none hlit hkind ?_
        rw [hslot]
        exact hgm
      obtain ⟨ctx, hctx, hpre⟩ :=
        dynamic_context_loop_prefix b rest (acc ++ [(key, none)])
          (fun q hq => hok2 q (by simp [hq]))
      refine ⟨ctx, ?_, ?_⟩
      · unfold dynamic_context_loop
        rw [hstep]
        exact hctx
      · exact hpre.subset (by simp)
    · obtain ⟨m, hm⟩ := dynamic_context_step_ok b acc k2 v2 (hok2 (k2, v2) (by simp))
      obtain ⟨ctx, hctx, hmem3⟩ := ih m (fun q hq => hok2 q (by simp [hq])) htail
      refine ⟨ctx, ?_, hmem3⟩
      unfold dynamic_context_loop
      rw [hm]
      exact hctx

/-- Concrete context specification with one literal entry and one
reference to the absent `Job` slot. -/
def cspec7 : List (String × String) := [("email_subject", "Welcome"), ("job_name", "@Job.name")]

/-- A bundle holding only a recipient. -/
def cb7 : ContextBundle := ⟨some [("first_name", "Ada")], none, none, none, none, none, none⟩

/-- Witness for claim 7: the `Job` slot is absent, so `job_name`
resolves to `None` without raising. -/
theorem claim7_null_safety_witness :
    ∃ ctx, dynamic_context cspec7 cb7 = .ok ctx ∧
      ("job_name", (none : Option String)) ∈ ctx :=
  claim7_null_safety cspec7 cb7 "job_name" "@Job.name" .job
    (by decide) (by decide) (by decide) (by decide) rfl

/-- A bundle with every slot absent. -/
def cb8 : ContextBundle := ⟨none, none, none, none, none, none, none⟩

/-- Claim C8 as stated is false at this input: the reference
`@Widget.name` carries the marker and names no known kind, and the
resolved context is the empty mapping - the output key `k` is omitted
entirely rather than bound to a null value. -/
theorem claim8_counterexample :
    dynamic_context [("k", "@Widget.name")] cb8 = .ok [] ∧
    ("k", (none : Option String)) ∉ ([] : List (String × Option String)) :=
  ⟨rfl, by simp⟩

/-- Claim C8 amended: a reference carrying the entity marker but
matching none of the seven kind markers leaves its output key absent
from the resolved context (rather than binding it to null); no error is
raised and dispatch proceeds. -/
theorem claim8_amended :
    ∀ (spec : List (String × String)) (b : ContextBundle) (key v : String),
      (∀ p ∈ spec, entry_ok b p.2 = true) →
      (key, v) ∈ spec →
      (∀ p ∈ spec, p.1 = key → p.2 = v) →
      pyIn "@" v = true →
      matchEntityKind v = none →
      ∃ ctx, dynamic_context spec b = .ok ctx ∧ ∀ w, (key, w) ∉ ctx := by
  intro spec b key v hok hmem hkey hat hkind
  have hlit : ¬ pyIn "@" v = false := by simp [hat]
  unfold dynamic_context
  suffices h : ∀ (sp : List (String × String)) (acc : List (String × Option String)),
      (∀ p ∈ sp, entry_ok b p.2 = true) →
      (∀ p ∈ sp, p.1 = key → p.2 = v) →
      (∀ w, (key, w) ∉ acc) →
      ∃ ctx, dynamic_context_loop b acc sp = .ok ctx ∧ ∀ w, (key, w) ∉ ctx by
    exact h spec [] hok hkey (by simp)
  intro sp
  induction sp with
  | nil =>
    intro acc _ _ hacc
    exact ⟨acc, rfl, hacc⟩
  | cons p rest ih =>
    intro acc hok2 hkey2 hacc
    obtain ⟨k2, v2⟩ := p
    obtain ⟨m, hm⟩ := dynamic_context_step_ok b acc k2 v2 (hok2 (k2, v2) (by simp))
    have hm2 : ∀ w, (key, w) ∉ m := by
      obtain ⟨tail, htail, hkeys⟩ := dynamic_context_step_shape b acc k2 v2 m hm
      by_cases hk2 : k2 = key
      · have hv2 : v2 = v := hkey2 (k2, v2) (by simp) hk2
        have hskip : dynamic_context_step b acc k2 v2 = .ok acc := by
          rw [hv2]
          exact dynamic_context_step_skip b acc k2 v hlit hkind
        rw [hskip] at hm
        cases hm
        exact hacc
      · intro w hw
        rw [htail] at hw
        rcases List.mem_append.mp hw with h1 | h1
        · exact hacc w h1
        · have hkk := hkeys (key, w) h1
          simp at hkk
          exact hk2 hkk.symm
    obtain ⟨ctx, hctx, hctx2⟩ := ih m (fun q hq => hok2 q (by simp [hq]))
      (fun q hq hq2 => hkey2 q (by simp [hq]) hq2) hm2
    refine ⟨ctx, ?_, hctx2⟩
    unfold dynamic_context_loop
    rw [hm]
    exact hctx

/-- Concrete context specification whose single `k` entry names the
unknown kind `Widget`. -/
def cspec8 : List (String × String) := [("k", "@Widget.name"), ("greeting", "hello")]

/-- Witness for the amended claim 8: the resolution succeeds and the
key `k` is absent from the result. -/
theorem claim8_amended_witness :
    ∃ ctx, dynamic_context cspec8 cb8 = .ok ctx ∧
      ∀ w, ("k", w) ∉ ctx :=
  claim8_amended cspec8 cb8 "k" "@Widget.name"
    (by decide) (by decide) (by decide) (by decide) (by decide)

end Notifier
